import Mathlib

/-!
Verification of the scrape orchestrator of the prometheus-mssql-exporter
repository against its specification.

The development shallowly embeds the JavaScript sources:

* metric values and row cells become `JSVal` (JS numbers are modelled as
  exact rationals; the claims under scrutiny never exercise floating-point
  rounding);
* the prom-client registry becomes `MetricSpace`, a function from a
  (metric-name, label-tuple) key to the last written value; `Gauge.set`
  becomes `setVal` (last-write-wins, exactly one slot per label tuple);
* each collector of `metrics.js` (the `part_000` catalogue variant, which
  is the one containing the query-store collectors) becomes a `Collector`
  whose `collect` field is the translation of its mapping function; a
  mapping function that can throw returns its performed writes together
  with the raised error (`CollectOut`);
* the concurrent variant of `measure` / `collect` / the `/metrics` handler
  (index.js lines 174-237) becomes `measureSem` / `collectTargetOver` /
  `scrapeWrites`; query and connect outcomes are an explicit environment
  `ScrapeEnv`;
* the first, sequential variant of `measure` (index.js lines 49-69), whose
  empty-recordset branch reads the undeclared identifier `error`, becomes
  `measure1`;
* the scheduling claims are settled over small trace models
  (`targetTrace`, `handlerTrace`) that reflect the only nondeterminism the
  Node runtime leaves: all queries of a target are issued synchronously in
  catalogue order before any result is processed, results are processed in
  an arbitrary arrival order, and each awaited connect forces the handler
  loop to suspend until it settles.

Writes from different collectors of one scrape target distinct keys
(metric names are disjoint across collectors and the host label separates
targets), so the final registry state is independent of the arrival
interleaving; the denotational `scrapeWrites` fold fixes the canonical
order and the trace models carry the ordering content.
-/

namespace MssqlExporter

/-- A JavaScript runtime value as it appears in row cells, label values and
gauge values. JS numbers are modelled as exact rationals. -/
inductive JSVal
  | num (q : ℚ)
  | str (s : String)
  | null
  | undefined
  | nan
deriving DecidableEq

/-- One result row: an ordered sequence of typed scalar cells
(`arrayRowMode` is switched on in the connection config). -/
abbrev Row := List JSVal

/-- A query result set. -/
abbrev Rows := List Row

/-- A concrete label assignment, in the property order of the JS object
literal passed to `Gauge.set`. -/
abbrev Labels := List (String × JSVal)

/-- The key of one observation series: gauge name plus label tuple. -/
abbrev MKey := String × Labels

/-- One `Gauge.set` invocation: key and written value. -/
abbrev SetOp := MKey × JSVal

/-- JS positional access `row[i]`: out-of-range access yields `undefined`,
it never throws. -/
def cell (row : Row) (i : Nat) : JSVal := row.getD i .undefined

/-- JS positional access `rows[i]` on the recordset. -/
def rowAt (rows : Rows) (i : Nat) : Row := rows.getD i []

/-- An error surfacing inside the scrape: a thrown JS `TypeError`, a thrown
JS `ReferenceError`, or a rejected driver promise (connect/query failure). -/
inductive JsError
  | typeError (msg : String)
  | referenceError (msg : String)
  | queryError (msg : String)
deriving DecidableEq

/-- JS property access `v.p` for the value shapes occurring here: reading a
property of `undefined` or `null` throws a `TypeError`; strings and numbers
have none of the accessed properties and yield `undefined`. -/
def jsGetProp : JSVal → String → Except JsError JSVal
  | .undefined, p => .error (.typeError ("Cannot read properties of undefined: " ++ p))
  | .null, p => .error (.typeError ("Cannot read properties of null: " ++ p))
  | _, _ => .ok .undefined

/-- Decimal string to number, the fragment of the JS string-to-number
coercion needed for cells (an optionally signed decimal numeral with an
optional fractional part); anything else coerces to `NaN`. -/
def decStringToNumber (s : String) : JSVal :=
  let t := s.trim
  if t = "" then .num 0
  else
    match t.splitOn "." with
    | [a] =>
      match a.toInt? with
      | some n => .num n
      | none => .nan
    | [a, b] =>
      match a.toInt?, b.toNat? with
      | some n, some f =>
        let frac : ℚ := (f : ℚ) / ((10 : ℚ) ^ b.length)
        .num (if t.startsWith "-" then (n : ℚ) - frac else (n : ℚ) + frac)
      | _, _ => .nan
    | _ => .nan

/-- The JS unary plus coercion used by the volume-stats mapping function:
identity on numbers, `0` on `null` and the empty string, `NaN` on
`undefined` and unparseable strings. -/
def jsToNumber : JSVal → JSVal
  | .num q => .num q
  | .null => .num 0
  | .undefined => .nan
  | .nan => .nan
  | .str s => decStringToNumber s

/-- `true` exactly on JS number values. -/
def isNumericVal : JSVal → Bool
  | .num _ => true
  | _ => false

/-- The process-wide prom-client registry state: the last value written for
every (gauge, label-tuple) key, `none` when the series was never set. -/
def MetricSpace := MKey → Option JSVal

/-- `Gauge.set`: overwrite the value stored for exactly this label tuple. -/
def setVal (k : MKey) (v : JSVal) (s : MetricSpace) : MetricSpace :=
  fun k' => if k' = k then some v else s k'

/-- Apply a list of `Gauge.set` invocations in order. -/
def applySets (w : List SetOp) (s : MetricSpace) : MetricSpace :=
  w.foldl (fun acc op => setVal op.1 op.2 acc) s

/-- The registry before the first scrape: every series absent. -/
def emptySpace : MetricSpace := fun _ => none

/-- The value of the last write to key `k` in the list `w` (later entries
of `w` are later writes), `none` if `w` never writes `k`. -/
def lastWrite? : List SetOp → MKey → Option JSVal
  | [], _ => none
  | op :: w, k =>
    match lastWrite? w k with
    | some v => some v
    | none => if k = op.1 then some op.2 else none

/-- Rendering the registry: the exposition text is a deterministic
function of the stored values; we expose it as the value table restricted
to any key enumeration. -/
def render (s : MetricSpace) (ks : List MKey) : List (MKey × Option JSVal) :=
  ks.map (fun k => (k, s k))

/-- The outcome of invoking one mapping function: the `Gauge.set` calls it
performed (in program order, up to the point of a throw) and the error it
raised, if any. -/
structure CollectOut where
  sets : List SetOp
  err : Option JsError
deriving DecidableEq

/-- One catalogue entry: the collector key in the `getMetrics` result
object, the gauge names of its instruments, its SQL text (abbreviated to a
stable identifier; the text itself never influences control flow), and the
translation of its mapping function. `collect` receives the recordset and
the third positional argument of the call site in `measure`, which is the
host string `connection.config.server`. -/
structure Collector where
  name : String
  metricNames : List String
  query : String
  collect : Rows → String → CollectOut

/-- The label tuple of the availability gauge for one host. -/
def upKey (host : String) : MKey := ("mssql_up", [("host", .str host)])

/-- Collector `mssql_up`: records `rows[0][0]` of `SELECT 1` under the
host label. -/
def mssql_up_c : Collector where
  name := "mssql_up"
  metricNames := ["mssql_up"]
  query := "SELECT 1"
  collect := fun rows host =>
    { sets := [(upKey host, cell (rowAt rows 0) 0)], err := none }

/-- Splitting a character list at the dots, accumulator-based. -/
def splitDotAux : List Char → List Char → List String
  | [], acc => [String.mk acc.reverse]
  | c :: cs, acc =>
    if c = '.' then String.mk acc.reverse :: splitDotAux cs []
    else splitDotAux cs (c :: acc)

/-- Modelled from the spec: `productVersionParse` lives in `src/utils.js`,
which is absent from the sources; the spec describes the instrument as
"Instance version (Major.Minor)", so the function is modelled as splitting
the dotted product-version string into its major and minor components and
throwing on any value that is not such a string. -/
def productVersionParse : JSVal → Except JsError (String × String)
  | .str s =>
    match splitDotAux s.toList [] with
    | ma :: mi :: _ => .ok (ma, mi)
    | _ => .error (.typeError "Cannot parse product version")
  | _ => .error (.typeError "Cannot parse product version")

/-- Collector `mssql_product_version`: parses `rows[0][0]`, then records
the JS string concatenation `v.major + "." + v.minor` — a string value —
under the host label. -/
def mssql_product_version_c : Collector where
  name := "mssql_product_version"
  metricNames := ["mssql_product_version"]
  query := "SELECT SERVERPROPERTY productversion"
  collect := fun rows host =>
    match productVersionParse (cell (rowAt rows 0) 0) with
    | .error e => { sets := [], err := some e }
    | .ok (ma, mi) =>
      { sets := [(("mssql_product_version", [("host", .str host)]),
                  .str (ma ++ "." ++ mi))],
        err := none }

/-- Collector `mssql_instance_local_time`: records `rows[0][0]`. -/
def mssql_instance_local_time_c : Collector where
  name := "mssql_instance_local_time"
  metricNames := ["mssql_instance_local_time"]
  query := "SELECT DATEDIFF second epoch"
  collect := fun rows host =>
    { sets := [(("mssql_instance_local_time", [("host", .str host)]),
                cell (rowAt rows 0) 0)],
      err := none }

/-- Collector `mssql_connections`: one set per row, labels
(host, database, state="current"), value `row[1]`. -/
def mssql_connections_c : Collector where
  name := "mssql_connections"
  metricNames := ["mssql_connections"]
  query := "SELECT connections per database"
  collect := fun rows host =>
    { sets := rows.map (fun row =>
        (("mssql_connections",
          [("host", .str host), ("database", cell row 0), ("state", .str "current")]),
         cell row 1)),
      err := none }

/-- Collector `mssql_client_connections`: one set per row, labels
(host, client, database), value `row[2]`. -/
def mssql_client_connections_c : Collector where
  name := "mssql_client_connections"
  metricNames := ["mssql_client_connections"]
  query := "SELECT sessions per client"
  collect := fun rows host =>
    { sets := rows.map (fun row =>
        (("mssql_client_connections",
          [("host", .str host), ("client", cell row 0), ("database", cell row 1)]),
         cell row 2)),
      err := none }

/-- Collector `mssql_deadlocks` (instrument key
`mssql_deadlocks_per_second`, gauge name `mssql_deadlocks`): records
`rows[0][0]`. -/
def mssql_deadlocks_c : Collector where
  name := "mssql_deadlocks"
  metricNames := ["mssql_deadlocks"]
  query := "SELECT deadlocks counter"
  collect := fun rows host =>
    { sets := [(("mssql_deadlocks", [("host", .str host)]), cell (rowAt rows 0) 0)],
      err := none }

/-- Collector `mssql_user_errors`: records `rows[0][0]`. -/
def mssql_user_errors_c : Collector where
  name := "mssql_user_errors"
  metricNames := ["mssql_user_errors"]
  query := "SELECT user errors counter"
  collect := fun rows host =>
    { sets := [(("mssql_user_errors", [("host", .str host)]), cell (rowAt rows 0) 0)],
      err := none }

/-- Collector `mssql_kill_connection_errors`: records `rows[0][0]`. -/
def mssql_kill_connection_errors_c : Collector where
  name := "mssql_kill_connection_errors"
  metricNames := ["mssql_kill_connection_errors"]
  query := "SELECT kill connection errors counter"
  collect := fun rows host =>
    { sets := [(("mssql_kill_connection_errors", [("host", .str host)]),
                cell (rowAt rows 0) 0)],
      err := none }

/-- Collector `mssql_database_state`: one set per row, labels
(host, database), value `row[1]`. -/
def mssql_database_state_c : Collector where
  name := "mssql_database_state"
  metricNames := ["mssql_database_state"]
  query := "SELECT name and state of databases"
  collect := fun rows host =>
    { sets := rows.map (fun row =>
        (("mssql_database_state", [("host", .str host), ("database", cell row 0)]),
         cell row 1)),
      err := none }

/-- Collector `mssql_log_growths`: one set per row, labels
(host, database), value `row[1]`. -/
def mssql_log_growths_c : Collector where
  name := "mssql_log_growths"
  metricNames := ["mssql_log_growths"]
  query := "SELECT log growths counter per database"
  collect := fun rows host =>
    { sets := rows.map (fun row =>
        (("mssql_log_growths", [("host", .str host), ("database", cell row 0)]),
         cell row 1)),
      err := none }

/-- Collector `mssql_database_filesize`: one set per row, labels
(host, database, logicalname, type, filename), value `row[4]`. -/
def mssql_database_filesize_c : Collector where
  name := "mssql_database_filesize"
  metricNames := ["mssql_database_filesize"]
  query := "SELECT file sizes"
  collect := fun rows host =>
    { sets := rows.map (fun row =>
        (("mssql_database_filesize",
          [("host", .str host), ("database", cell row 0), ("logicalname", cell row 1),
           ("type", cell row 2), ("filename", cell row 3)]),
         cell row 4)),
      err := none }

/-- Collector `mssql_buffer_manager`: five sets from the first row, in
source order read, write, life expectancy, checkpoint (cell 4), lazy
(cell 3). -/
def mssql_buffer_manager_c : Collector where
  name := "mssql_buffer_manager"
  metricNames := ["mssql_page_read_total", "mssql_page_write_total",
                  "mssql_page_life_expectancy", "mssql_lazy_write_total",
                  "mssql_page_checkpoint_total"]
  query := "SELECT buffer manager counters"
  collect := fun rows host =>
    let row := rowAt rows 0
    { sets := [(("mssql_page_read_total", [("host", .str host)]), cell row 0),
               (("mssql_page_write_total", [("host", .str host)]), cell row 1),
               (("mssql_page_life_expectancy", [("host", .str host)]), cell row 2),
               (("mssql_page_checkpoint_total", [("host", .str host)]), cell row 4),
               (("mssql_lazy_write_total", [("host", .str host)]), cell row 3)],
      err := none }

/-- Collector `mssql_io_stall`: per row, one total set plus six typed
sets (read, write, queued_read, queued_write, avg_read, avg_write). -/
def mssql_io_stall_c : Collector where
  name := "mssql_io_stall"
  metricNames := ["mssql_io_stall", "mssql_io_stall_total"]
  query := "SELECT io stall sums per database"
  collect := fun rows host =>
    { sets := rows.flatMap (fun row =>
        [(("mssql_io_stall_total", [("host", .str host), ("database", cell row 0)]),
          cell row 3),
         (("mssql_io_stall",
           [("host", .str host), ("database", cell row 0), ("type", .str "read")]),
          cell row 1),
         (("mssql_io_stall",
           [("host", .str host), ("database", cell row 0), ("type", .str "write")]),
          cell row 2),
         (("mssql_io_stall",
           [("host", .str host), ("database", cell row 0), ("type", .str "queued_read")]),
          cell row 4),
         (("mssql_io_stall",
           [("host", .str host), ("database", cell row 0), ("type", .str "queued_write")]),
          cell row 5),
         (("mssql_io_stall",
           [("host", .str host), ("database", cell row 0), ("type", .str "avg_read")]),
          cell row 6),
         (("mssql_io_stall",
           [("host", .str host), ("database", cell row 0), ("type", .str "avg_write")]),
          cell row 7)]),
      err := none }

/-- Collector `mssql_batch_requests`: one set per row under the host
label. -/
def mssql_batch_requests_c : Collector where
  name := "mssql_batch_requests"
  metricNames := ["mssql_batch_requests"]
  query := "SELECT batch requests counter"
  collect := fun rows host =>
    { sets := rows.map (fun row =>
        (("mssql_batch_requests", [("host", .str host)]), cell row 0)),
      err := none }

/-- Collector `mssql_transactions`: one set per row, labels
(host, database), value `row[1]`. -/
def mssql_transactions_c : Collector where
  name := "mssql_transactions"
  metricNames := ["mssql_transactions"]
  query := "SELECT transactions counter per database"
  collect := fun rows host =>
    { sets := rows.map (fun row =>
        (("mssql_transactions", [("host", .str host), ("database", cell row 0)]),
         cell row 1)),
      err := none }

/-- Collector `mssql_os_process_memory`: two sets from the first row. -/
def mssql_os_process_memory_c : Collector where
  name := "mssql_os_process_memory"
  metricNames := ["mssql_page_fault_count", "mssql_memory_utilization_percentage"]
  query := "SELECT process memory"
  collect := fun rows host =>
    { sets := [(("mssql_page_fault_count", [("host", .str host)]),
                cell (rowAt rows 0) 0),
               (("mssql_memory_utilization_percentage", [("host", .str host)]),
                cell (rowAt rows 0) 1)],
      err := none }

/-- Collector `mssql_os_sys_memory`: four sets from the first row. -/
def mssql_os_sys_memory_c : Collector where
  name := "mssql_os_sys_memory"
  metricNames := ["mssql_total_physical_memory_kb", "mssql_available_physical_memory_kb",
                  "mssql_total_page_file_kb", "mssql_available_page_file_kb"]
  query := "SELECT system memory"
  collect := fun rows host =>
    { sets := [(("mssql_total_physical_memory_kb", [("host", .str host)]),
                cell (rowAt rows 0) 0),
               (("mssql_available_physical_memory_kb", [("host", .str host)]),
                cell (rowAt rows 0) 1),
               (("mssql_total_page_file_kb", [("host", .str host)]),
                cell (rowAt rows 0) 2),
               (("mssql_available_page_file_kb", [("host", .str host)]),
                cell (rowAt rows 0) 3)],
      err := none }

/-- Collector `mssql_db_memory`: one set per row, labels (host, database),
value `row[1]`. -/
def mssql_db_memory_c : Collector where
  name := "mssql_db_memory"
  metricNames := ["mssql_db_memory"]
  query := "SELECT buffer memory per database"
  collect := fun rows host =>
    { sets := rows.map (fun row =>
        (("mssql_db_memory", [("host", .str host), ("database", cell row 0)]),
         cell row 1)),
      err := none }

/-- Collector `mssql_volume_stats` (the `part_000` variant with the
percentage gauge): per row, three sets whose values pass through the JS
unary plus coercion. -/
def mssql_volume_stats_c : Collector where
  name := "mssql_volume_stats"
  metricNames := ["mssql_volume_total_bytes", "mssql_volume_available_bytes",
                  "mssql_volume_available_percentage"]
  query := "SELECT volume stats"
  collect := fun rows host =>
    { sets := rows.flatMap (fun row =>
        [(("mssql_volume_total_bytes",
           [("host", .str host), ("volume_mount_point", cell row 0)]),
          jsToNumber (cell row 1)),
         (("mssql_volume_available_bytes",
           [("host", .str host), ("volume_mount_point", cell row 0)]),
          jsToNumber (cell row 2)),
         (("mssql_volume_available_percentage",
           [("host", .str host), ("volume_mount_point", cell row 0)]),
          jsToNumber (cell row 3))]),
      err := none }

/-- The expression `config.connect.options.database` of the query-store
mapping functions, evaluated against the value bound to their `config`
parameter. -/
def queryStoreDbname (config : JSVal) : Except JsError JSVal := do
  let c ← jsGetProp config "connect"
  let o ← jsGetProp c "options"
  jsGetProp o "database"

/-- Collector `mssql_most_exec_query`. Its mapping function declares the
parameters (rows, metrics, config, host) while `measure` passes only
(rows, metrics, host): `config` is bound to the host string and `host` to
`undefined`, so the first body line `config.connect.options.database`
throws a `TypeError` before any set. The unreachable success branch is
still translated, with the undefined `host` as label value. -/
def mssql_most_exec_query_c : Collector where
  name := "mssql_most_exec_query"
  metricNames := ["mssql_total_execution_count"]
  query := "SELECT most executed queries"
  collect := fun rows hostArg =>
    match queryStoreDbname (.str hostArg) with
    | .error e => { sets := [], err := some e }
    | .ok dbname =>
      { sets := rows.map (fun row =>
          (("mssql_total_execution_count",
            [("host", .undefined), ("database", dbname), ("query_id", cell row 0),
             ("query_text_id", cell row 1), ("query_sql_text", cell row 2)]),
           cell row 3)),
        err := none }

/-- Collector `mssql_most_avg_io_query`, same parameter mismatch as
`mssql_most_exec_query`. -/
def mssql_most_avg_io_query_c : Collector where
  name := "mssql_most_avg_io_query"
  metricNames := ["mssql_avg_physical_io_reads", "mssql_avg_rowcount",
                  "mssql_count_executions"]
  query := "SELECT most io queries"
  collect := fun rows hostArg =>
    match queryStoreDbname (.str hostArg) with
    | .error e => { sets := [], err := some e }
    | .ok dbname =>
      { sets := rows.flatMap (fun row =>
          [(("mssql_avg_physical_io_reads",
             [("host", .undefined), ("database", dbname), ("query_sql_text", cell row 1),
              ("query_id", cell row 2)]),
            cell row 0),
           (("mssql_avg_rowcount",
             [("host", .undefined), ("database", dbname), ("query_sql_text", cell row 1),
              ("query_id", cell row 2)]),
            cell row 3),
           (("mssql_count_executions",
             [("host", .undefined), ("database", dbname), ("query_sql_text", cell row 1),
              ("query_id", cell row 2)]),
            cell row 4)]),
        err := none }

/-- Collector `mssql_most_avg_time_query`, same parameter mismatch as
`mssql_most_exec_query`. -/
def mssql_most_avg_time_query_c : Collector where
  name := "mssql_most_avg_time_query"
  metricNames := ["mssql_avg_duration_us"]
  query := "SELECT most average time queries"
  collect := fun rows hostArg =>
    match queryStoreDbname (.str hostArg) with
    | .error e => { sets := [], err := some e }
    | .ok dbname =>
      { sets := rows.map (fun row =>
          (("mssql_avg_duration_us",
            [("host", .undefined), ("database", dbname), ("query_sql_text", cell row 1),
             ("query_id", cell row 2)]),
           cell row 0)),
        err := none }

/-- The catalogue returned by `getMetrics`, in the insertion order of the
result object literal, which is the iteration order of `Object.entries` in
the orchestrator. -/
def catalogue : List Collector :=
  [mssql_up_c, mssql_product_version_c, mssql_instance_local_time_c,
   mssql_connections_c, mssql_client_connections_c, mssql_deadlocks_c,
   mssql_user_errors_c, mssql_kill_connection_errors_c, mssql_database_state_c,
   mssql_log_growths_c, mssql_database_filesize_c, mssql_buffer_manager_c,
   mssql_io_stall_c, mssql_batch_requests_c, mssql_transactions_c,
   mssql_os_process_memory_c, mssql_os_sys_memory_c, mssql_db_memory_c,
   mssql_volume_stats_c, mssql_most_exec_query_c, mssql_most_avg_io_query_c,
   mssql_most_avg_time_query_c]

/-- The outcomes the outside world hands one scrape: whether the connect
of target `i` succeeds, and the settled result of the query a collector
runs against target `i` (a recordset, or a rejected promise). -/
structure ScrapeEnv where
  connectOk : Nat → Bool
  queryResult : Nat → String → Except JsError Rows

/-- The writes the concurrent `measure` (index.js lines 174-194) applies
for one collector once its query settles: none on a rejected query; none
on an empty recordset (the no-data branch only logs); on a non-empty
recordset the sets the mapping function performed before returning or
throwing — a thrown mapping error is caught by the try/catch around the
`collector.collect` call and only logged. `measure` always resolves. -/
def measureSem (qr : Except JsError Rows) (c : Collector) (host : String) : List SetOp :=
  match qr with
  | .error _ => []
  | .ok rows => if rows.isEmpty then [] else (c.collect rows host).sets

/-- The writes of the concurrent `collect` (index.js lines 204-210) over a
collector list: every collector runs and its settled writes accumulate;
the canonical order is catalogue order (distinct collectors write
disjoint gauge names, so the registry state does not depend on the
arrival interleaving). -/
def collectTargetOver (cs : List Collector) (env : ScrapeEnv) (i : Nat)
    (host : String) : List SetOp :=
  (cs.map (fun c => measureSem (env.queryResult i c.name) c host)).flatten

/-- The writes one target contributes to the scrape (the `/metrics`
handler, index.js lines 219-237): on a failed connect, the catch block
performs the single write `mssql_up{host} = 0` and nothing else; on a
successful connect, the writes of `collect` over the full catalogue. -/
def targetWrites (env : ScrapeEnv) (i : Nat) (host : String) : List SetOp :=
  if env.connectOk i then collectTargetOver catalogue env i host
  else [(upKey host, .num 0)]

/-- All writes of one scrape, fanned out over the configured targets
(index by position, host is `connectionString.server`). -/
def scrapeWrites (env : ScrapeEnv) (targets : List String) : List SetOp :=
  (targets.enum.map (fun p => targetWrites env p.1 p.2)).flatten

/-- The registry after one scrape over starting state `s`. The handler
always reaches `res.send(client.register.metrics())`: every failure path
inside the scrape is a catch block that resolves, so the scrape denotes a
total function on registry states. -/
def scrapeSpace (env : ScrapeEnv) (targets : List String) (s : MetricSpace) :
    MetricSpace :=
  applySets (scrapeWrites env targets) s

/-- The queries the scrape issues against target `i`: all catalogue
queries when the connect succeeded, none when it failed (the catch block
returns without touching the connection). -/
def targetQueries (env : ScrapeEnv) (i : Nat) : List String :=
  if env.connectOk i then catalogue.map (fun c => c.query) else []

/-- The outcome of the first, sequential variant of `measure` (index.js
lines 49-69): performed sets, whether the returned promise resolved,
the error caught by the try/catch around the mapping function, and the
error absorbed by the trailing promise `.catch` handler. -/
structure Measure1Out where
  sets : List SetOp
  resolved : Bool
  caughtByTry : Option JsError
  caughtByCatch : Option JsError
deriving DecidableEq

/-- Reading the identifier `error` in the empty-recordset branch of the
first `measure` variant (index.js line 61): no binding named `error` is in
scope there, so the read itself throws a `ReferenceError`. -/
def undeclaredErrorRead : Except JsError JSVal :=
  .error (.referenceError "error is not defined")

/-- The first, sequential variant of `measure`. On a non-empty recordset
the mapping function runs under try/catch and the promise resolves; on an
empty recordset the no-data `console.error` call evaluates the undeclared
identifier `error`, the resulting `ReferenceError` rejects the `.then`
continuation and is absorbed by the `.catch` handler, which logs and
resolves; on a rejected query the `.catch` handler logs and resolves. -/
def measure1 (qr : Except JsError Rows) (c : Collector) (host : String) :
    Measure1Out :=
  match qr with
  | .error e => { sets := [], resolved := true, caughtByTry := none,
                  caughtByCatch := some e }
  | .ok rows =>
    if rows.isEmpty then
      match undeclaredErrorRead with
      | .error e => { sets := [], resolved := true, caughtByTry := none,
                      caughtByCatch := some e }
      | .ok _ => { sets := [], resolved := true, caughtByTry := none,
                   caughtByCatch := none }
    else
      let out := c.collect rows host
      { sets := out.sets, resolved := true, caughtByTry := out.err,
        caughtByCatch := none }

/-- An event in the intra-target schedule of the concurrent `collect`:
the query of a collector is issued, the settled result of a collector is
processed (its sets applied or its failure logged), or the connection is
closed by the `.finally` attached in the handler. -/
inductive TEvent
  | queryStart (c : String)
  | handled (c : String)
  | closed
deriving DecidableEq

/-- The schedule of one connected target under arrival order `π`: the
`collect` loop calls `measure` for every catalogue entry synchronously, so
every query is issued, in catalogue order, before any result is
processed; results are then processed in the arbitrary arrival order `π`;
the `.finally` close runs after `Promise.all` settles, hence after every
result. -/
def targetTrace (π : List Collector) : List TEvent :=
  catalogue.map (fun c => TEvent.queryStart c.name)
    ++ π.map (fun c => TEvent.handled c.name) ++ [TEvent.closed]

/-- The valid intra-target schedules: one per arrival order, which is an
arbitrary permutation of the catalogue. -/
def ValidTargetTrace (tr : List TEvent) : Prop :=
  ∃ π, π.Perm catalogue ∧ tr = targetTrace π

/-- An event in the handler-level schedule: a connect is initiated, a
connect settles, the failure path writes `up = 0`, or the success path
spawns the per-target collection. -/
inductive HEvent
  | connectStart (i : Nat)
  | connectEnd (i : Nat)
  | upSet (i : Nat)
  | spawnCollect (i : Nat)
deriving DecidableEq

/-- The handler loop from start index `i` for `m` remaining targets:
`await connect(connectionString)` suspends the loop until the connect of
the current target settles, so the trace interleaving between targets is
fixed — connect `i` starts, connect `i` settles, then either the up-write
(failure) or the task spawn (success), and only then does the loop reach
the next target. -/
def handlerTraceAux (ok : Nat → Bool) : Nat → Nat → List HEvent
  | _, 0 => []
  | i, m + 1 =>
    HEvent.connectStart i :: HEvent.connectEnd i ::
      (if ok i then HEvent.spawnCollect i else HEvent.upSet i) ::
        handlerTraceAux ok (i + 1) m

/-- The connect-phase schedule of the handler over `n` targets: unique,
because every connect is individually awaited. -/
def handlerTrace (ok : Nat → Bool) (n : Nat) : List HEvent :=
  handlerTraceAux ok 0 n

/-- Event `x` occurs strictly before event `y` in trace `l`. -/
def tracePrec {α : Type} (l : List α) (x y : α) : Prop :=
  ∃ a b, a < b ∧ l.get? a = some x ∧ l.get? b = some y

/-- A value reported by `lastWrite?` really is the value of a write to that
key in the list. -/
theorem lastWrite?_mem {w : List SetOp} {k : MKey} {v : JSVal}
    (h : lastWrite? w k = some v) : ∃ op ∈ w, op.1 = k ∧ op.2 = v := by
  induction w with
  | nil => simp [lastWrite?] at h
  | cons op w ih =>
    simp only [lastWrite?] at h
    cases hlw : lastWrite? w k with
    | some v' =>
      rw [hlw] at h
      obtain rfl : v' = v := by simpa using h
      obtain ⟨op', hm, hk, hv⟩ := ih hlw
      exact ⟨op', List.mem_cons_of_mem _ hm, hk, hv⟩
    | none =>
      rw [hlw] at h
      by_cases hk : k = op.1
      · rw [if_pos hk] at h
        obtain rfl : op.2 = v := by simpa using h
        exact ⟨op, List.mem_cons_self _ _, hk.symm, rfl⟩
      · rw [if_neg hk] at h
        cases h

/-- `lastWrite?` yields `none` exactly when the list never writes the
key. -/
theorem lastWrite?_eq_none_iff {w : List SetOp} {k : MKey} :
    lastWrite? w k = none ↔ ∀ op ∈ w, op.1 ≠ k := by
  induction w with
  | nil => simp [lastWrite?]
  | cons op w ih =>
    simp only [lastWrite?]
    cases hlw : lastWrite? w k with
    | some v =>
      simp only [hlw]
      constructor
      · intro h; cases h
      · intro h
        exact absurd (lastWrite?_mem hlw) (by
          rintro ⟨op', hm, hk, -⟩
          exact h op' (List.mem_cons_of_mem _ hm) hk)
    | none =>
      simp only [hlw, List.mem_cons]
      constructor
      · intro h x hx
        rcases hx with rfl | hx
        · intro hk
          rw [if_pos hk.symm] at h
          cases h
        · exact ih.mp hlw x hx
      · intro h
        rw [if_neg (fun hk => h op (Or.inl rfl) hk.symm)]

/-- Looking a key up after applying a write list: the value of the last
write to this key when one exists, the previous value otherwise. -/
theorem applySets_apply (w : List SetOp) (s : MetricSpace) (k : MKey) :
    applySets w s k =
      match lastWrite? w k with
      | some v => some v
      | none => s k := by
  induction w generalizing s with
  | nil => rfl
  | cons op w ih =>
    show applySets w (setVal op.1 op.2 s) k = _
    rw [ih]
    cases hlw : lastWrite? w k with
    | some v => simp [lastWrite?, hlw]
    | none =>
      simp only [lastWrite?, hlw, setVal]
      by_cases hk : k = op.1 <;> simp [hk]

/-- Applying the same write list twice is the same as applying it once:
every write is a per-tuple overwrite. -/
theorem applySets_applySets (w : List SetOp) (s : MetricSpace) :
    applySets w (applySets w s) = applySets w s := by
  funext k
  rw [applySets_apply, applySets_apply]
  cases hlw : lastWrite? w k with
  | some v => simp only [hlw]
  | none => simp only [hlw]

/-- Evaluating `config.connect.options.database` with `config` bound to a
host string: `config.connect` is `undefined`, so reading `.options` throws
a `TypeError`. -/
theorem queryStoreDbname_str (h : String) :
    queryStoreDbname (.str h)
      = .error (.typeError "Cannot read properties of undefined: options") := rfl

/-- Every write a catalogue mapping function performs names one of the
instruments of its own collector. -/
theorem collect_sets_names (c : Collector) (hc : c ∈ catalogue) (rows : Rows)
    (host : String) (op : SetOp) (hop : op ∈ (c.collect rows host).sets) :
    op.1.1 ∈ c.metricNames := by
  simp only [catalogue, List.mem_cons, List.not_mem_nil, or_false] at hc
  rcases hc with rfl|rfl|rfl|rfl|rfl|rfl|rfl|rfl|rfl|rfl|rfl|rfl|rfl|rfl|rfl|rfl|rfl|rfl|rfl|rfl|rfl|rfl
  · simp only [mssql_up_c, List.mem_singleton] at hop
    subst hop; simp [mssql_up_c, upKey]
  · simp only [mssql_product_version_c] at hop ⊢
    rcases hpv : productVersionParse (cell (rowAt rows 0) 0) with e | p
    · simp [hpv] at hop
    · simp [hpv] at hop; simp [hop]
  · simp only [mssql_instance_local_time_c, List.mem_singleton] at hop
    subst hop; simp [mssql_instance_local_time_c]
  · simp only [mssql_connections_c] at hop ⊢
    rcases List.mem_map.mp hop with ⟨row, -, rfl⟩; simp
  · simp only [mssql_client_connections_c] at hop ⊢
    rcases List.mem_map.mp hop with ⟨row, -, rfl⟩; simp
  · simp only [mssql_deadlocks_c, List.mem_singleton] at hop
    subst hop; simp [mssql_deadlocks_c]
  · simp only [mssql_user_errors_c, List.mem_singleton] at hop
    subst hop; simp [mssql_user_errors_c]
  · simp only [mssql_kill_connection_errors_c, List.mem_singleton] at hop
    subst hop; simp [mssql_kill_connection_errors_c]
  · simp only [mssql_database_state_c] at hop ⊢
    rcases List.mem_map.mp hop with ⟨row, -, rfl⟩; simp
  · simp only [mssql_log_growths_c] at hop ⊢
    rcases List.mem_map.mp hop with ⟨row, -, rfl⟩; simp
  · simp only [mssql_database_filesize_c] at hop ⊢
    rcases List.mem_map.mp hop with ⟨row, -, rfl⟩; simp
  · simp only [mssql_buffer_manager_c, List.mem_cons, List.not_mem_nil, or_false] at hop
    rcases hop with rfl|rfl|rfl|rfl|rfl <;> simp [mssql_buffer_manager_c]
  · simp only [mssql_io_stall_c] at hop ⊢
    rcases List.mem_flatMap.mp hop with ⟨row, -, hmem⟩
    simp only [List.mem_cons, List.not_mem_nil, or_false] at hmem
    rcases hmem with rfl|rfl|rfl|rfl|rfl|rfl|rfl <;> simp
  · simp only [mssql_batch_requests_c] at hop ⊢
    rcases List.mem_map.mp hop with ⟨row, -, rfl⟩; simp
  · simp only [mssql_transactions_c] at hop ⊢
    rcases List.mem_map.mp hop with ⟨row, -, rfl⟩; simp
  · simp only [mssql_os_process_memory_c, List.mem_cons, List.not_mem_nil, or_false] at hop
    rcases hop with rfl|rfl <;> simp [mssql_os_process_memory_c]
  · simp only [mssql_os_sys_memory_c, List.mem_cons, List.not_mem_nil, or_false] at hop
    rcases hop with rfl|rfl|rfl|rfl <;> simp [mssql_os_sys_memory_c]
  · simp only [mssql_db_memory_c] at hop ⊢
    rcases List.mem_map.mp hop with ⟨row, -, rfl⟩; simp
  · simp only [mssql_volume_stats_c] at hop ⊢
    rcases List.mem_flatMap.mp hop with ⟨row, -, hmem⟩
    simp only [List.mem_cons, List.not_mem_nil, or_false] at hmem
    rcases hmem with rfl|rfl|rfl <;> simp
  · simp [mssql_most_exec_query_c, queryStoreDbname_str] at hop
  · simp [mssql_most_avg_io_query_c, queryStoreDbname_str] at hop
  · simp [mssql_most_avg_time_query_c, queryStoreDbname_str] at hop

/-- In this catalogue every mapping function that throws does so before
performing any write: a throwing invocation performs no set at all. -/
theorem collect_err_no_sets (c : Collector) (hc : c ∈ catalogue) (rows : Rows)
    (host : String) (herr : (c.collect rows host).err.isSome = true) :
    (c.collect rows host).sets = [] := by
  simp only [catalogue, List.mem_cons, List.not_mem_nil, or_false] at hc
  rcases hc with rfl|rfl|rfl|rfl|rfl|rfl|rfl|rfl|rfl|rfl|rfl|rfl|rfl|rfl|rfl|rfl|rfl|rfl|rfl|rfl|rfl|rfl
  · simp [mssql_up_c] at herr
  · rcases hpv : productVersionParse (cell (rowAt rows 0) 0) with e | p
    · simp [mssql_product_version_c, hpv]
    · simp [mssql_product_version_c, hpv] at herr
  · simp [mssql_instance_local_time_c] at herr
  · simp [mssql_connections_c] at herr
  · simp [mssql_client_connections_c] at herr
  · simp [mssql_deadlocks_c] at herr
  · simp [mssql_user_errors_c] at herr
  · simp [mssql_kill_connection_errors_c] at herr
  · simp [mssql_database_state_c] at herr
  · simp [mssql_log_growths_c] at herr
  · simp [mssql_database_filesize_c] at herr
  · simp [mssql_buffer_manager_c] at herr
  · simp [mssql_io_stall_c] at herr
  · simp [mssql_batch_requests_c] at herr
  · simp [mssql_transactions_c] at herr
  · simp [mssql_os_process_memory_c] at herr
  · simp [mssql_os_sys_memory_c] at herr
  · simp [mssql_db_memory_c] at herr
  · simp [mssql_volume_stats_c] at herr
  · simp [mssql_most_exec_query_c, queryStoreDbname_str]
  · simp [mssql_most_avg_io_query_c, queryStoreDbname_str]
  · simp [mssql_most_avg_time_query_c, queryStoreDbname_str]

/-- Only the availability collector owns the gauge name `mssql_up`. -/
theorem up_name_unique (c : Collector) (hc : c ∈ catalogue)
    (h : "mssql_up" ∈ c.metricNames) : c = mssql_up_c := by
  simp only [catalogue, List.mem_cons, List.not_mem_nil, or_false] at hc
  rcases hc with rfl|rfl|rfl|rfl|rfl|rfl|rfl|rfl|rfl|rfl|rfl|rfl|rfl|rfl|rfl|rfl|rfl|rfl|rfl|rfl|rfl|rfl
  · rfl
  all_goals simp [mssql_product_version_c, mssql_instance_local_time_c,
    mssql_connections_c, mssql_client_connections_c, mssql_deadlocks_c,
    mssql_user_errors_c, mssql_kill_connection_errors_c, mssql_database_state_c,
    mssql_log_growths_c, mssql_database_filesize_c, mssql_buffer_manager_c,
    mssql_io_stall_c, mssql_batch_requests_c, mssql_transactions_c,
    mssql_os_process_memory_c, mssql_os_sys_memory_c, mssql_db_memory_c,
    mssql_volume_stats_c, mssql_most_exec_query_c, mssql_most_avg_io_query_c,
    mssql_most_avg_time_query_c] at h

/-- A write applied by `measureSem` is a write of the mapping function on
the non-empty recordset the query returned. -/
theorem measureSem_sets_of_mem {qr : Except JsError Rows} {c : Collector}
    {host : String} {op : SetOp} (h : op ∈ measureSem qr c host) :
    ∃ rows, qr = .ok rows ∧ rows ≠ [] ∧ op ∈ (c.collect rows host).sets := by
  cases qr with
  | error e => simp [measureSem] at h
  | ok rows =>
    by_cases hre : rows.isEmpty
    · simp [measureSem, hre] at h
    · refine ⟨rows, rfl, ?_, ?_⟩
      · simpa [List.isEmpty_iff] using hre
      · simpa [measureSem, hre] using h

/-- The gauge names of the catalogue instruments are globally distinct. -/
theorem catalogue_metricNames_flat_nodup :
    ((catalogue.map (fun c => c.metricNames)).flatten).Nodup := by decide

/-- Distinct catalogue entries own disjoint instrument name sets. -/
theorem catalogue_metricNames_pairwise :
    catalogue.Pairwise (fun a b => a.metricNames.Disjoint b.metricNames) := by
  have h := catalogue_metricNames_flat_nodup
  rw [List.nodup_flatten] at h
  exact List.pairwise_map.mp h.2

/-- Instrument-name disjointness for any two distinct catalogue
collectors. -/
theorem catalogue_disjoint_names {c c' : Collector} (hc : c ∈ catalogue)
    (hc' : c' ∈ catalogue) (hne : c ≠ c') :
    c.metricNames.Disjoint c'.metricNames :=
  catalogue_metricNames_pairwise.forall
    (fun _ _ h => List.Disjoint.symm h) hc hc' hne

/-- The collector names of the catalogue are distinct. -/
theorem catalogue_names_nodup : (catalogue.map (fun c => c.name)).Nodup := by decide

/-- Dropping a collector whose settled measure produced no write does not
change the writes a target accumulates: every sibling still runs and
contributes exactly its own writes. -/
theorem collectTargetOver_drop (pre post : List Collector) (c : Collector)
    (env : ScrapeEnv) (i : Nat) (host : String)
    (hz : measureSem (env.queryResult i c.name) c host = []) :
    collectTargetOver (pre ++ c :: post) env i host
      = collectTargetOver (pre ++ post) env i host := by
  simp [collectTargetOver, hz]

/-- A scrape environment in which every connect is refused. -/
def envAllFail : ScrapeEnv :=
  { connectOk := fun _ => false,
    queryResult := fun _ _ => .error (.queryError "connection refused") }

/-- A scrape environment in which every connect succeeds and every query
returns the single row `[[1]]`. -/
def envAllOk : ScrapeEnv :=
  { connectOk := fun _ => true,
    queryResult := fun _ _ => .ok [[.num 1]] }

/-- A scrape environment in which every connect succeeds but every query
is rejected. -/
def envQueriesFail : ScrapeEnv :=
  { connectOk := fun _ => true,
    queryResult := fun _ _ => .error (.queryError "timeout") }

/-- C10: in the first (sequential) variant of the orchestrator, the
empty-recordset branch of `measure` references the undeclared variable
`error`, so for every query that returns zero rows the no-data logging
path itself throws a `ReferenceError`; that rejection is absorbed by the
surrounding `.catch` handler, `measure` still resolves, no set is
performed, and applying its (empty) writes leaves every registry state
unchanged. -/
theorem c10_empty_recordset_reference_error (c : Collector) (host : String) :
    measure1 (.ok []) c host
      = { sets := [], resolved := true, caughtByTry := none,
          caughtByCatch := some (.referenceError "error is not defined") }
    ∧ ∀ s : MetricSpace, applySets (measure1 (.ok []) c host).sets s = s :=
  ⟨rfl, fun _ => rfl⟩

/-- C9: when their queries return rows, the three query-store collectors
never set any value: `measure` passes (rows, metrics, host) while they
declare (rows, metrics, config, host), so `config` is bound to the host
string, `config.connect` is `undefined`, and reading `.options` throws a
`TypeError` before any set; the error is caught at the collector boundary
and the settled measure applies no write. -/
theorem c9_query_store_mismatch (rows : Rows) (host : String) (hne : rows ≠ []) :
    ((mssql_most_exec_query_c.collect rows host).sets = []
      ∧ (mssql_most_exec_query_c.collect rows host).err
          = some (.typeError "Cannot read properties of undefined: options")
      ∧ measureSem (.ok rows) mssql_most_exec_query_c host = [])
    ∧ ((mssql_most_avg_time_query_c.collect rows host).sets = []
      ∧ (mssql_most_avg_time_query_c.collect rows host).err
          = some (.typeError "Cannot read properties of undefined: options")
      ∧ measureSem (.ok rows) mssql_most_avg_time_query_c host = [])
    ∧ ((mssql_most_avg_io_query_c.collect rows host).sets = []
      ∧ (mssql_most_avg_io_query_c.collect rows host).err
          = some (.typeError "Cannot read properties of undefined: options")
      ∧ measureSem (.ok rows) mssql_most_avg_io_query_c host = []) := by
  cases rows with
  | nil => exact absurd rfl hne
  | cons r rs => exact ⟨⟨rfl, rfl, rfl⟩, ⟨rfl, rfl, rfl⟩, ⟨rfl, rfl, rfl⟩⟩

/-- Witness for C9 at the concrete recordset `[[1]]`. -/
theorem c9_witness :
    ([[JSVal.num 1]] : Rows) ≠ []
    ∧ (mssql_most_exec_query_c.collect [[JSVal.num 1]] "h").sets = [] :=
  ⟨List.cons_ne_nil _ _,
   (c9_query_store_mismatch [[JSVal.num 1]] "h" (List.cons_ne_nil _ _)).1.1⟩

/-- C7 counterexample: the `mssql_product_version` mapping function
records the JS string concatenation of major, ".", minor — a non-numeric
string value — so not every value recorded into an instrument is numeric. -/
theorem c7_counterexample :
    (mssql_product_version_c.collect [[JSVal.str "15.0.2000.5"]] "h").sets
      = [(("mssql_product_version", [("host", JSVal.str "h")]), JSVal.str "15.0")]
    ∧ isNumericVal (JSVal.str "15.0") = false :=
  ⟨rfl, rfl⟩

/-- Every member row of a recordset is reachable through the positional
access `rows[i]`. -/
theorem rowAt_of_mem {rows : Rows} {row : Row} (h : row ∈ rows) :
    ∃ i, rowAt rows i = row := by
  rcases List.getElem_of_mem h with ⟨i, hlt, hg⟩
  refine ⟨i, ?_⟩
  simp [rowAt, List.getD_eq_getElem?_getD, List.getElem?_eq_getElem hlt, hg]

/-- C7 amended: every value a mapping function records into an instrument
is one of the typed scalar cells of the RowSet carried into `Gauge.set`
unchanged, with two exceptions: `mssql_volume_stats` records the JS unary
plus coercion of a cell (the identity on numeric cells, so numeric cells
reach the gauges without truncation or change of kind), and
`mssql_product_version` records the non-numeric string major.minor built
by JS string concatenation from the parsed version cell. -/
theorem c7_amended :
    (∀ c ∈ catalogue, c.name ≠ "mssql_product_version" →
      c.name ≠ "mssql_volume_stats" →
      ∀ (rows : Rows) (host : String), ∀ op ∈ (c.collect rows host).sets,
        ∃ i j, op.2 = cell (rowAt rows i) j)
    ∧ (∀ (rows : Rows) (host : String),
        ∀ op ∈ (mssql_volume_stats_c.collect rows host).sets,
          ∃ i j, op.2 = jsToNumber (cell (rowAt rows i) j))
    ∧ (∀ q : ℚ, jsToNumber (.num q) = .num q)
    ∧ (∀ (rows : Rows) (host : String),
        ∀ op ∈ (mssql_product_version_c.collect rows host).sets,
          ∃ ma mi, productVersionParse (cell (rowAt rows 0) 0) = .ok (ma, mi)
            ∧ op.2 = .str (ma ++ "." ++ mi)
            ∧ isNumericVal op.2 = false) := by
  refine ⟨?_, ?_, fun q => rfl, ?_⟩
  · intro c hc hpv hvs rows host op hop
    simp only [catalogue, List.mem_cons, List.not_mem_nil, or_false] at hc
    rcases hc with rfl|rfl|rfl|rfl|rfl|rfl|rfl|rfl|rfl|rfl|rfl|rfl|rfl|rfl|rfl|rfl|rfl|rfl|rfl|rfl|rfl|rfl
    · simp only [mssql_up_c, List.mem_singleton] at hop
      exact ⟨0, 0, by rw [hop]⟩
    · exact absurd rfl hpv
    · simp only [mssql_instance_local_time_c, List.mem_singleton] at hop
      exact ⟨0, 0, by rw [hop]⟩
    · simp only [mssql_connections_c] at hop
      rcases List.mem_map.mp hop with ⟨row, hrow, rfl⟩
      rcases rowAt_of_mem hrow with ⟨i, hi⟩
      exact ⟨i, 1, by rw [hi]⟩
    · simp only [mssql_client_connections_c] at hop
      rcases List.mem_map.mp hop with ⟨row, hrow, rfl⟩
      rcases rowAt_of_mem hrow with ⟨i, hi⟩
      exact ⟨i, 2, by rw [hi]⟩
    · simp only [mssql_deadlocks_c, List.mem_singleton] at hop
      exact ⟨0, 0, by rw [hop]⟩
    · simp only [mssql_user_errors_c, List.mem_singleton] at hop
      exact ⟨0, 0, by rw [hop]⟩
    · simp only [mssql_kill_connection_errors_c, List.mem_singleton] at hop
      exact ⟨0, 0, by rw [hop]⟩
    · simp only [mssql_database_state_c] at hop
      rcases List.mem_map.mp hop with ⟨row, hrow, rfl⟩
      rcases rowAt_of_mem hrow with ⟨i, hi⟩
      exact ⟨i, 1, by rw [hi]⟩
    · simp only [mssql_log_growths_c] at hop
      rcases List.mem_map.mp hop with ⟨row, hrow, rfl⟩
      rcases rowAt_of_mem hrow with ⟨i, hi⟩
      exact ⟨i, 1, by rw [hi]⟩
    · simp only [mssql_database_filesize_c] at hop
      rcases List.mem_map.mp hop with ⟨row, hrow, rfl⟩
      rcases rowAt_of_mem hrow with ⟨i, hi⟩
      exact ⟨i, 4, by rw [hi]⟩
    · simp only [mssql_buffer_manager_c, List.mem_cons, List.not_mem_nil,
        or_false] at hop
      rcases hop with rfl|rfl|rfl|rfl|rfl
      · exact ⟨0, 0, rfl⟩
      · exact ⟨0, 1, rfl⟩
      · exact ⟨0, 2, rfl⟩
      · exact ⟨0, 4, rfl⟩
      · exact ⟨0, 3, rfl⟩
    · simp only [mssql_io_stall_c] at hop
      rcases List.mem_flatMap.mp hop with ⟨row, hrow, hmem⟩
      rcases rowAt_of_mem hrow with ⟨i, hi⟩
      simp only [List.mem_cons, List.not_mem_nil, or_false] at hmem
      rcases hmem with rfl|rfl|rfl|rfl|rfl|rfl|rfl
      · exact ⟨i, 3, by rw [hi]⟩
      · exact ⟨i, 1, by rw [hi]⟩
      · exact ⟨i, 2, by rw [hi]⟩
      · exact ⟨i, 4, by rw [hi]⟩
      · exact ⟨i, 5, by rw [hi]⟩
      · exact ⟨i, 6, by rw [hi]⟩
      · exact ⟨i, 7, by rw [hi]⟩
    · simp only [mssql_batch_requests_c] at hop
      rcases List.mem_map.mp hop with ⟨row, hrow, rfl⟩
      rcases rowAt_of_mem hrow with ⟨i, hi⟩
      exact ⟨i, 0, by rw [hi]⟩
    · simp only [mssql_transactions_c] at hop
      rcases List.mem_map.mp hop with ⟨row, hrow, rfl⟩
      rcases rowAt_of_mem hrow with ⟨i, hi⟩
      exact ⟨i, 1, by rw [hi]⟩
    · simp only [mssql_os_process_memory_c, List.mem_cons, List.not_mem_nil,
        or_false] at hop
      rcases hop with rfl|rfl
      · exact ⟨0, 0, rfl⟩
      · exact ⟨0, 1, rfl⟩
    · simp only [mssql_os_sys_memory_c, List.mem_cons, List.not_mem_nil,
        or_false] at hop
      rcases hop with rfl|rfl|rfl|rfl
      · exact ⟨0, 0, rfl⟩
      · exact ⟨0, 1, rfl⟩
      · exact ⟨0, 2, rfl⟩
      · exact ⟨0, 3, rfl⟩
    · simp only [mssql_db_memory_c] at hop
      rcases List.mem_map.mp hop with ⟨row, hrow, rfl⟩
      rcases rowAt_of_mem hrow with ⟨i, hi⟩
      exact ⟨i, 1, by rw [hi]⟩
    · exact absurd rfl hvs
    · simp [mssql_most_exec_query_c, queryStoreDbname_str] at hop
    · simp [mssql_most_avg_io_query_c, queryStoreDbname_str] at hop
    · simp [mssql_most_avg_time_query_c, queryStoreDbname_str] at hop
  · intro rows host op hop
    simp only [mssql_volume_stats_c] at hop
    rcases List.mem_flatMap.mp hop with ⟨row, hrow, hmem⟩
    rcases rowAt_of_mem hrow with ⟨i, hi⟩
    simp only [List.mem_cons, List.not_mem_nil, or_false] at hmem
    rcases hmem with rfl|rfl|rfl
    · exact ⟨i, 1, by rw [hi]⟩
    · exact ⟨i, 2, by rw [hi]⟩
    · exact ⟨i, 3, by rw [hi]⟩
  · intro rows host op hop
    simp only [mssql_product_version_c] at hop
    rcases hpp : productVersionParse (cell (rowAt rows 0) 0) with e | p
    · rw [hpp] at hop
      simp at hop
    · obtain ⟨ma, mi⟩ := p
      rw [hpp] at hop
      simp only [List.mem_singleton] at hop
      refine ⟨ma, mi, rfl, ?_, ?_⟩
      · rw [hop]
      · rw [hop]; rfl

/-- Witness for C7 amended: the connections collector on a concrete row
carries the numeric cell `5` into its gauge unchanged. -/
theorem c7_witness :
    mssql_connections_c ∈ catalogue
    ∧ ∃ i j,
        ((("mssql_connections",
           [("host", JSVal.str "a"), ("database", JSVal.str "m"),
            ("state", JSVal.str "current")]), JSVal.num 5) : SetOp).2
          = cell (rowAt [[JSVal.str "m", JSVal.num 5]] i) j :=
  ⟨by simp [catalogue],
   c7_amended.1 mssql_connections_c (by simp [catalogue]) (by decide) (by decide)
     [[JSVal.str "m", JSVal.num 5]] "a"
     ((("mssql_connections",
        [("host", JSVal.str "a"), ("database", JSVal.str "m"),
         ("state", JSVal.str "current")]), JSVal.num 5))
     (by decide)⟩

/-- C4: when the connect of a target fails, the catch block of the handler
performs exactly one write — the availability gauge at the fully-known
label tuple of this host, value 0 — and the scrape issues no query against
that target. -/
theorem c4_down_target_frame (env : ScrapeEnv) (i : Nat) (host : String)
    (hdown : env.connectOk i = false) :
    targetWrites env i host
      = [(("mssql_up", [("host", JSVal.str host)]), JSVal.num 0)]
    ∧ targetQueries env i = [] := by
  constructor <;> simp [targetWrites, targetQueries, hdown, upKey]

/-- Witness for C4 on a concrete all-refusing environment. -/
theorem c4_witness :
    envAllFail.connectOk 0 = false
    ∧ targetWrites envAllFail 0 "a"
        = [(("mssql_up", [("host", JSVal.str "a")]), JSVal.num 0)]
    ∧ targetQueries envAllFail 0 = [] :=
  ⟨rfl, (c4_down_target_frame envAllFail 0 "a" rfl).1,
   (c4_down_target_frame envAllFail 0 "a" rfl).2⟩

/-- C3: the orchestrator never raises past its own boundary — every
failure path is a catch block that resolves, so the scrape denotes a total
function and the handler always renders a completed snapshot — and under
total connectivity loss every target reads `mssql_up = 0` while every
instrument other than the availability gauge retains its previous (stale
or absent) value. -/
theorem c3_total_loss (env : ScrapeEnv) (targets : List String) (s : MetricSpace)
    (hfail : ∀ p ∈ targets.enum, env.connectOk p.1 = false) :
    (∀ p ∈ targets.enum, scrapeSpace env targets s (upKey p.2) = some (JSVal.num 0))
    ∧ ∀ k : MKey, k.1 ≠ "mssql_up" → scrapeSpace env targets s k = s k := by
  have hw : ∀ op ∈ scrapeWrites env targets, ∃ h', op = (upKey h', JSVal.num 0) := by
    intro op hop
    rcases List.mem_flatten.mp hop with ⟨L, hL, hopL⟩
    rcases List.mem_map.mp hL with ⟨p, hp, rfl⟩
    rw [targetWrites, if_neg (by simp [hfail p hp])] at hopL
    exact ⟨p.2, by simpa using hopL⟩
  constructor
  · intro p hp
    have hmem : (upKey p.2, JSVal.num 0) ∈ scrapeWrites env targets := by
      refine List.mem_flatten.mpr ⟨targetWrites env p.1 p.2,
        List.mem_map.mpr ⟨p, hp, rfl⟩, ?_⟩
      rw [targetWrites, if_neg (by simp [hfail p hp])]
      exact List.mem_singleton.mpr rfl
    rw [scrapeSpace, applySets_apply]
    cases hlw : lastWrite? (scrapeWrites env targets) (upKey p.2) with
    | none => exact absurd rfl (lastWrite?_eq_none_iff.mp hlw _ hmem)
    | some v =>
      rcases lastWrite?_mem hlw with ⟨op, hm, -, hv⟩
      rcases hw op hm with ⟨h', rfl⟩
      simp only at hv
      rw [← hv]
  · intro k hk
    rw [scrapeSpace, applySets_apply]
    cases hlw : lastWrite? (scrapeWrites env targets) k with
    | none => rfl
    | some v =>
      rcases lastWrite?_mem hlw with ⟨op, hm, hkey, -⟩
      rcases hw op hm with ⟨h', rfl⟩
      exact absurd (by rw [← hkey]; rfl) hk

/-- Witness for C3: a two-target scrape in which both connects are
refused. -/
theorem c3_witness :
    (∀ p ∈ (["a", "b"] : List String).enum, envAllFail.connectOk p.1 = false)
    ∧ ∀ p ∈ (["a", "b"] : List String).enum,
        scrapeSpace envAllFail ["a", "b"] emptySpace (upKey p.2)
          = some (JSVal.num 0) :=
  ⟨fun _ _ => rfl,
   (c3_total_loss envAllFail ["a", "b"] emptySpace (fun _ _ => rfl)).1⟩

/-- C2: collector failures are contained at the granularity of one
collector for one target. When the query of collector `c` is rejected,
returns no rows, or its mapping function throws (which, in this
catalogue, always happens before any set), the settled measure of `c`
applies no write, the instruments of `c` retain their previous values for
any key, and the writes of the target are exactly those of the sibling
collectors — running the catalogue with `c` removed yields the same
writes, so every sibling still runs and updates its instruments. -/
theorem c2_collector_isolation (env : ScrapeEnv) (i : Nat) (host : String)
    (s : MetricSpace) (c : Collector) (hc : c ∈ catalogue)
    (hfail : (∃ e, env.queryResult i c.name = .error e)
      ∨ env.queryResult i c.name = .ok []
      ∨ ∃ rows, env.queryResult i c.name = .ok rows ∧ rows ≠ []
          ∧ (c.collect rows host).err.isSome = true) :
    measureSem (env.queryResult i c.name) c host = []
    ∧ (∀ k : MKey, k.1 ∈ c.metricNames →
        applySets (collectTargetOver catalogue env i host) s k = s k)
    ∧ ∃ pre post, catalogue = pre ++ c :: post
        ∧ collectTargetOver catalogue env i host
            = collectTargetOver (pre ++ post) env i host := by
  have hz : measureSem (env.queryResult i c.name) c host = [] := by
    rcases hfail with ⟨e, he⟩ | hemp | ⟨rows, hok, hne, herr⟩
    · simp [measureSem, he]
    · simp [measureSem, hemp]
    · have hie : rows.isEmpty = false := by simpa [List.isEmpty_iff] using hne
      simp [measureSem, hok, hie, collect_err_no_sets c hc rows host herr]
  have hnowrite : ∀ op ∈ collectTargetOver catalogue env i host,
      op.1.1 ∉ c.metricNames := by
    intro op hop hmem
    rcases List.mem_flatten.mp hop with ⟨L, hL, hopL⟩
    rcases List.mem_map.mp hL with ⟨c', hc', rfl⟩
    by_cases hcc : c' = c
    · subst hcc
      rw [hz] at hopL
      exact absurd hopL (List.not_mem_nil op)
    · rcases measureSem_sets_of_mem hopL with ⟨rows, -, -, hsets⟩
      exact catalogue_disjoint_names hc' hc hcc
        (collect_sets_names c' hc' rows host op hsets) hmem
  refine ⟨hz, ?_, ?_⟩
  · intro k hk
    rw [applySets_apply]
    cases hlw : lastWrite? (collectTargetOver catalogue env i host) k with
    | none => rfl
    | some v =>
      rcases lastWrite?_mem hlw with ⟨op, hm, hkey, -⟩
      have : op.1.1 ∈ c.metricNames := by rw [hkey]; exact hk
      exact absurd this (hnowrite op hm)
  · rcases List.append_of_mem hc with ⟨pre, post, hsplit⟩
    refine ⟨pre, post, hsplit, ?_⟩
    rw [hsplit]
    exact collectTargetOver_drop pre post c env i host hz

/-- Witness for C2: the availability collector with a rejected query. -/
theorem c2_witness :
    mssql_up_c ∈ catalogue
    ∧ measureSem (envQueriesFail.queryResult 0 "mssql_up") mssql_up_c "a" = [] :=
  ⟨by simp [catalogue],
   (c2_collector_isolation envQueriesFail 0 "a" emptySpace mssql_up_c
     (by simp [catalogue]) (Or.inl ⟨.queryError "timeout", rfl⟩)).1⟩

/-- Every scrape write to the gauge name `mssql_up` carries the value 0
(failed connect) or 1 (the availability collector on a recordset `[[1]]`),
provided the availability query of every connected target returned its
row: only the catch block of the handler and the availability collector
ever write this gauge name. -/
theorem scrape_up_writes_bool (env : ScrapeEnv) (targets : List String)
    (hq : ∀ i, env.connectOk i = true →
      env.queryResult i "mssql_up" = .ok [[.num 1]]) :
    ∀ op ∈ scrapeWrites env targets, op.1.1 = "mssql_up" →
      op.2 = JSVal.num 0 ∨ op.2 = JSVal.num 1 := by
  intro op hop hname
  rcases List.mem_flatten.mp hop with ⟨L, hL, hopL⟩
  rcases List.mem_map.mp hL with ⟨p, hp, rfl⟩
  by_cases hc : env.connectOk p.1 = true
  · rw [targetWrites, if_pos hc] at hopL
    rcases List.mem_flatten.mp hopL with ⟨L', hL', hopL'⟩
    rcases List.mem_map.mp hL' with ⟨c, hcmem, rfl⟩
    rcases measureSem_sets_of_mem hopL' with ⟨rows, hok, -, hsets⟩
    have hnm := collect_sets_names c hcmem rows p.2 op hsets
    rw [hname] at hnm
    have hceq := up_name_unique c hcmem hnm
    subst hceq
    have hqq := hq p.1 hc
    rw [show mssql_up_c.name = "mssql_up" from rfl, hqq] at hok
    injection hok with hrows
    subst hrows
    right
    have : op = (upKey p.2, JSVal.num 1) := by
      simpa [mssql_up_c, cell, rowAt] using hsets
    rw [this]
  · rw [targetWrites, if_neg hc] at hopL
    left
    have : op = (upKey p.2, JSVal.num 0) := by simpa using hopL
    rw [this]

/-- C1 counterexample: a scrape in which the connect of the sole target
succeeds but its availability query is then rejected leaves the
availability instrument absent (on a first scrape) — the gauge is written
only on the failed-connect path or by the availability collector itself,
so a post-connect query failure produces no value at all for the host. -/
theorem c1_counterexample :
    scrapeSpace envQueriesFail ["a"] emptySpace (upKey "a") = none := rfl

/-- C1 amended: for every scrape and every configured target, provided
the availability query of each successfully connected target returns its
single row `[[1]]`, the availability instrument holds a value at the host
label tuple of that target (exactly one, the registry keeps one slot per
label tuple) and that value is 0 or 1; if the availability query itself
fails or returns no rows after a successful connect, the value may instead
remain absent or stale. -/
theorem c1_up_present_and_boolean (env : ScrapeEnv) (targets : List String)
    (s : MetricSpace)
    (hq : ∀ i, env.connectOk i = true →
      env.queryResult i "mssql_up" = .ok [[.num 1]])
    (p : Nat × String) (hp : p ∈ targets.enum) :
    ∃ v, scrapeSpace env targets s (upKey p.2) = some v
      ∧ (v = JSVal.num 0 ∨ v = JSVal.num 1) := by
  have hex : ∃ op ∈ scrapeWrites env targets, op.1 = upKey p.2 := by
    by_cases hc : env.connectOk p.1 = true
    · have hqq := hq p.1 hc
      have hmem1 : (upKey p.2, JSVal.num 1)
          ∈ measureSem (env.queryResult p.1 mssql_up_c.name) mssql_up_c p.2 := by
        rw [show mssql_up_c.name = "mssql_up" from rfl, hqq]
        simp [measureSem, mssql_up_c, cell, rowAt]
      refine ⟨(upKey p.2, JSVal.num 1), ?_, rfl⟩
      refine List.mem_flatten.mpr ⟨targetWrites env p.1 p.2,
        List.mem_map.mpr ⟨p, hp, rfl⟩, ?_⟩
      rw [targetWrites, if_pos hc]
      exact List.mem_flatten.mpr
        ⟨_, List.mem_map.mpr ⟨mssql_up_c, by simp [catalogue], rfl⟩, hmem1⟩
    · refine ⟨(upKey p.2, JSVal.num 0), ?_, rfl⟩
      refine List.mem_flatten.mpr ⟨targetWrites env p.1 p.2,
        List.mem_map.mpr ⟨p, hp, rfl⟩, ?_⟩
      rw [targetWrites, if_neg hc]
      exact List.mem_singleton.mpr rfl
  rw [scrapeSpace, applySets_apply]
  cases hlw : lastWrite? (scrapeWrites env targets) (upKey p.2) with
  | none =>
    rcases hex with ⟨op, hm, hkey⟩
    exact absurd hkey (lastWrite?_eq_none_iff.mp hlw op hm)
  | some v =>
    rcases lastWrite?_mem hlw with ⟨op, hm, hkey, hval⟩
    refine ⟨v, rfl, ?_⟩
    have hname : op.1.1 = "mssql_up" := by rw [hkey]; rfl
    have := scrape_up_writes_bool env targets hq op hm hname
    rw [← hval]
    exact this

/-- Witness for C1 amended: a one-target scrape in which the connect
succeeds and every query returns `[[1]]`. -/
theorem c1_witness :
    ((0, "a") ∈ (["a"] : List String).enum)
    ∧ ∃ v, scrapeSpace envAllOk ["a"] emptySpace (upKey "a") = some v
        ∧ (v = JSVal.num 0 ∨ v = JSVal.num 1) :=
  ⟨by decide,
   c1_up_present_and_boolean envAllOk ["a"] emptySpace (fun _ _ => rfl)
     (0, "a") (by decide)⟩

/-- C6: re-running a scrape with an unchanged, fully-available target set
and identical query results is idempotent — applying the same write list
twice is applying it once, so the registry state, and with it the
deterministic rendering, is identical after the second scrape. -/
theorem c6_idempotent (env : ScrapeEnv) (targets : List String) (s : MetricSpace)
    (havail : ∀ p ∈ targets.enum, env.connectOk p.1 = true) :
    scrapeSpace env targets (scrapeSpace env targets s) = scrapeSpace env targets s
    ∧ ∀ ks : List MKey,
        render (scrapeSpace env targets (scrapeSpace env targets s)) ks
          = render (scrapeSpace env targets s) ks := by
  have h := applySets_applySets (scrapeWrites env targets) s
  exact ⟨h, fun ks => by rw [show scrapeSpace env targets (scrapeSpace env targets s)
    = scrapeSpace env targets s from h]⟩

/-- Witness for C6 on a concrete fully-available one-target scrape. -/
theorem c6_witness :
    (∀ p ∈ (["a"] : List String).enum, envAllOk.connectOk p.1 = true)
    ∧ scrapeSpace envAllOk ["a"] (scrapeSpace envAllOk ["a"] emptySpace)
        = scrapeSpace envAllOk ["a"] emptySpace :=
  ⟨fun _ _ => rfl,
   (c6_idempotent envAllOk ["a"] emptySpace (fun _ _ => rfl)).1⟩

/-- The arrival order in which the availability result is processed after
the product-version result: a valid arrival permutation, obtained from the
catalogue order by swapping its first two entries. -/
def arrivalUpLate : List Collector :=
  mssql_product_version_c :: mssql_up_c :: catalogue.drop 2

/-- C5 counterexample: a valid intra-target schedule in which the
product-version collector is handled — its query result processed and its
sets applied — strictly before the availability observation is recorded.
All queries are issued synchronously before any result is processed, so
in every schedule other collectors already run before the availability
set; this schedule even processes a sibling result first. The
availability observation is therefore not recorded before any other
collector for the target runs. -/
theorem c5_counterexample :
    ValidTargetTrace (targetTrace arrivalUpLate)
    ∧ (targetTrace arrivalUpLate).indexOf (TEvent.handled "mssql_product_version")
        < (targetTrace arrivalUpLate).indexOf (TEvent.handled "mssql_up") :=
  ⟨⟨arrivalUpLate,
    List.Perm.swap mssql_up_c mssql_product_version_c (catalogue.drop 2), rfl⟩,
   by decide⟩

/-- C5 amended: in every valid intra-target schedule the availability
query is issued first, before any other collector of the target, but its
observation may be recorded only after sibling collectors have run; the
connection close happens exactly once, as the last event, hence only
after every collector of the target has settled. -/
theorem c5_amended (π : List Collector) (hπ : π.Perm catalogue) :
    (targetTrace π).head? = some (TEvent.queryStart "mssql_up")
    ∧ (targetTrace π).count TEvent.closed = 1
    ∧ (targetTrace π).getLast? = some TEvent.closed := by
  refine ⟨rfl, ?_, ?_⟩
  · simp only [targetTrace, List.count_append]
    have h1 : (catalogue.map (fun c => TEvent.queryStart c.name)).count
        TEvent.closed = 0 := by decide
    have h2 : (π.map (fun c => TEvent.handled c.name)).count TEvent.closed = 0 := by
      rw [List.count_eq_zero]
      simp
    simp [h1, h2, List.count_cons]
  · show ((catalogue.map (fun c => TEvent.queryStart c.name))
      ++ (π.map (fun c => TEvent.handled c.name) ++ [TEvent.closed])).getLast? = _
    rw [← List.append_assoc]
    exact List.getLast?_concat _

/-- Witness for C5 amended at the identity arrival order. -/
theorem c5_amended_witness :
    (catalogue.Perm catalogue)
    ∧ (targetTrace catalogue).head? = some (TEvent.queryStart "mssql_up") :=
  ⟨List.Perm.refl _, (c5_amended catalogue (List.Perm.refl _)).1⟩

/-- The all-successful connect outcome used for the concrete handler
schedules. -/
def okAll : Nat → Bool := fun _ => true

/-- C8 counterexample: in the (unique) handler schedule of a two-target
scrape — unique because every connect is individually awaited inside the
loop — the connect of target 0 settles strictly before the connect of
target 1 starts. The connection attempt of one target is therefore
ordered relative to the work of another target, contradicting the claimed
full independence between targets. -/
theorem c8_counterexample :
    (handlerTrace okAll 2).indexOf (HEvent.connectEnd 0)
      < (handlerTrace okAll 2).indexOf (HEvent.connectStart 1) := by decide

/-- In the handler schedule, the connect of target `s + k` settles at
position `3 * k + 1` of the remaining-loop trace. -/
theorem handlerTraceAux_connectEnd (ok : Nat → Bool) :
    ∀ (m s k : Nat), k < m →
      (handlerTraceAux ok s m).get? (3 * k + 1)
        = some (HEvent.connectEnd (s + k)) := by
  intro m
  induction m with
  | zero => intro s k hk; cases hk
  | succ m ih =>
    intro s k hk
    cases k with
    | zero => simp [handlerTraceAux]
    | succ k =>
      have h3 : 3 * (k + 1) + 1 = (3 * k + 1) + 3 := by ring
      rw [h3]
      show (handlerTraceAux ok (s + 1) m).get? (3 * k + 1) = _
      rw [ih (s + 1) k (Nat.lt_of_succ_lt_succ hk)]
      have : s + 1 + k = s + (k + 1) := by omega
      rw [this]

/-- In the handler schedule, the connect of target `s + k` starts at
position `3 * k` of the remaining-loop trace. -/
theorem handlerTraceAux_connectStart (ok : Nat → Bool) :
    ∀ (m s k : Nat), k < m →
      (handlerTraceAux ok s m).get? (3 * k)
        = some (HEvent.connectStart (s + k)) := by
  intro m
  induction m with
  | zero => intro s k hk; cases hk
  | succ m ih =>
    intro s k hk
    cases k with
    | zero => simp [handlerTraceAux]
    | succ k =>
      have h3 : 3 * (k + 1) = 3 * k + 3 := by ring
      rw [h3]
      show (handlerTraceAux ok (s + 1) m).get? (3 * k) = _
      rw [ih (s + 1) k (Nat.lt_of_succ_lt_succ hk)]
      have : s + 1 + k = s + (k + 1) := by omega
      rw [this]

/-- C8 amended: connection attempts are strictly sequential in
configuration order — in the handler schedule the connect of target `i`
settles strictly before the connect of target `i + 1` starts; after a
successful connect the collection of a target is spawned before later
targets connect and settles concurrently with them, and within a target
the queries are issued in catalogue order while their results settle in
any order. -/
theorem c8_sequential_connects (ok : Nat → Bool) (n i : Nat) (hi : i + 1 < n) :
    tracePrec (handlerTrace ok n) (HEvent.connectEnd i)
      (HEvent.connectStart (i + 1)) := by
  refine ⟨3 * i + 1, 3 * (i + 1), by omega, ?_, ?_⟩
  · have h := handlerTraceAux_connectEnd ok n 0 i (by omega)
    simpa [handlerTrace] using h
  · have h := handlerTraceAux_connectStart ok n 0 (i + 1) hi
    simpa [handlerTrace] using h

/-- Witness for C8 amended on the concrete two-target schedule. -/
theorem c8_sequential_connects_witness :
    (0 + 1 < 2)
    ∧ tracePrec (handlerTrace okAll 2) (HEvent.connectEnd 0)
        (HEvent.connectStart 1) :=
  ⟨by omega, c8_sequential_connects okAll 2 0 (by omega)⟩

end MssqlExporter
